import Mathlib

/-!
Shallow embedding of the serial line-protocol driver of `mecode/printer.py`
(class `Printer`): the frame codec (`_next_line`, `_checksum`), the
send-buffer operations (`sendline`, `load_file`), the response correlator
(`_read_worker` line handling and `_readline_future`), the synchronous
facade (`get_response`), the connect-time state reset (`connect`), and a
transition system for the sender/receiver acknowledgment pacing protocol
(`_print_worker` / `_read_worker`).
-/

namespace Mecode

/-- Decidable equality for `Except`, used to evaluate the embedded
functions on concrete inputs. -/
instance {ε α : Type} [DecidableEq ε] [DecidableEq α] : DecidableEq (Except ε α) := fun a b =>
  match a, b with
  | Except.ok x, Except.ok y =>
    if h : x = y then isTrue (by rw [h]) else isFalse (by intro hc; cases hc; exact h rfl)
  | Except.error x, Except.error y =>
    if h : x = y then isTrue (by rw [h]) else isFalse (by intro hc; cases hc; exact h rfl)
  | Except.ok _, Except.error _ => isFalse (by intro hc; cases hc)
  | Except.error _, Except.ok _ => isFalse (by intro hc; cases hc)

/-- Python `str.strip()`: drop leading and trailing whitespace (spelled out
over the character list so that concrete evaluation reduces in the kernel). -/
def pyStrip (s : String) : String :=
  String.mk (((s.data.dropWhile Char.isWhitespace).reverse.dropWhile Char.isWhitespace).reverse)

/-- Python `line.split(';')[0]` together with the guarding `';' in line`
check used in `sendline` and `load_file`: everything before the first `';'`
(when no `';'` occurs, the whole string, exactly as the guarded code keeps
the line unchanged). -/
def stripComment (s : String) : String :=
  String.mk (s.data.takeWhile (fun c => c ≠ ';'))

/-- Python `str.startswith(p)` as a prefix test on the character lists. -/
def pyStartsWith (s p : String) : Bool := p.data.isPrefixOf s.data

/-- Python `needle in hay` substring containment over character lists. -/
def hasSub : List Char → List Char → Bool
  | [], needle => needle.isEmpty
  | c :: t, needle => needle.isPrefixOf (c :: t) || hasSub t needle

/-- Python `sub in s` on strings, via `hasSub`. -/
def pyContains (s sub : String) : Bool := hasSub s.data sub.data

/-- Python `str.split()` (split on runs of whitespace, dropping empty
pieces), as applied to `"Resend: 143"` lines in `_read_worker`. -/
def pySplitWs (s : String) : List String :=
  ((s.data.splitOnP Char.isWhitespace).filter (fun w => w ≠ [])).map String.mk

/-- Python `int(s)` on the non-negative integer literals the firmware sends
in resend requests: all-digit strings parse to their value, anything else
raises (`none`). -/
def pyInt? (s : String) : Option Nat :=
  if s.data ≠ [] ∧ s.data.all Char.isDigit then
    some (s.data.foldl (fun a c => 10 * a + (c.toNat - 48)) 0)
  else none

/-- Python list indexing `l[i]` for a non-negative index: the element when
`i < len(l)`, an `IndexError` otherwise. -/
def pyGet (l : List String) (i : Nat) : Except String String :=
  match l.get? i with
  | some x => Except.ok x
  | none => Except.error "IndexError"

/-!  Frame codec: `Printer._checksum` and `Printer._next_line`.  -/

/-- Model of `Printer._checksum`: XOR of the byte values of every character
(`reduce(lambda a, b: a ^ b, [ord(char) for char in line])`), an error on
the empty string. -/
def checksum (line : String) : Except String Nat :=
  match line.data with
  | [] => Except.error "cannot compute checksum of an empty string"
  | c :: cs => Except.ok (cs.foldl (fun a ch => a ^^^ ch.toNat) c.toNat)

/-- Model of `Printer._next_line`: take the buffer entry at the cursor,
strip it, embed the sequence number (`cursor + 1`, forced to `0` when the
stripped line starts with `"M110"`), and append `*<checksum>` and a
newline. -/
def nextLine (buffer : List String) (cursor : Nat) : Except String String :=
  match buffer.get? cursor with
  | none => Except.error "IndexError"
  | some raw =>
    let line := pyStrip raw
    let idx := if pyStartsWith line "M110" then 0 else cursor + 1
    let nline := "N" ++ toString idx ++ " " ++ line
    match checksum nline with
    | Except.error e => Except.error e
    | Except.ok c => Except.ok (nline ++ "*" ++ toString c ++ "\n")

/-- The sequence number `_next_line` embeds for buffer entry `t` at cursor
position `i`. -/
def frameSeq (t : String) (i : Nat) : Nat :=
  if pyStartsWith (pyStrip t) "M110" then 0 else i + 1

/-!  Send buffer: `Printer.sendline` and `Printer.load_file`.  -/

/-- Line cleaning shared by `sendline` and `load_file`: strip, truncate at
`';'`, and signal `none` (nothing to append) when the remainder is falsy
(empty). -/
def cleanLine (line : String) : Option String :=
  let l := stripComment (pyStrip line)
  if l = "" then none else some l

/-- Model of `Printer.sendline`: raises when a disconnect is pending,
otherwise appends the cleaned line (if any) to the send buffer. The result
pairs the raised error (if any) with the resulting buffer; on an error the
buffer is unchanged, as in the source where the raise precedes any
mutation. -/
def sendline (disconnectPending : Bool) (buffer : List String)
    (line : String) : Option String × List String :=
  if disconnectPending then
    (some ("Attempted to send line after a disconnect was requested: " ++ line),
     buffer)
  else
    match cleanLine line with
    | none => (none, buffer)
    | some l => (none, buffer ++ [l])

/-- Model of `Printer.load_file`: append every cleaned, non-empty line of
the file to the buffer. -/
def loadFile (buffer : List String) (fileLines : List String) : List String :=
  buffer ++ fileLines.filterMap cleanLine

/-!  Response correlator: the `_read_worker` handling of one received line,
and `_readline_future`.  -/

/-- Control outcome of one `_read_worker` loop iteration: proceed to the
next `readline`, leave the loop (the `break` in the resend branch), or
raise out of the loop body. -/
inductive ReadOutcome where
  | next
  | stop
  | fault (msg : String)
  deriving DecidableEq

/-- State touched by `_read_worker`: the send cursor (`_current_line_idx`),
the acknowledgment flag (`_ok_received`), the response log, the temperature
log, the accumulated partial response (`full_resp`), and the thread control
flags. -/
structure ReadState where
  currentLineIdx : Nat
  okReceived : Bool
  responses : List String
  tempReadings : List String
  fullResp : String
  printing : Bool
  stopPrinting : Bool
  stopReading : Bool
  deriving DecidableEq

/-- The trailing `if 'ok' in line` check of the `_read_worker` body: on an
acknowledgment token, set the flag, append the accumulated response to the
response log (`_set_readline_result`), and reset the accumulator. -/
def okCheck (st : ReadState) (line : String) : ReadState × ReadOutcome :=
  if pyContains line "ok" then
    ({ st with okReceived := true,
               responses := st.responses ++ [st.fullResp],
               fullResp := "" },
     ReadOutcome.next)
  else (st, ReadOutcome.next)

/-- Model of one iteration of the `_read_worker` loop body on a line read
from the serial port. Mirrors the source order: the resend branch (which
rolls the cursor back to `n - 1`, sets the flag and leaves the loop with
`break`), then the `T:` telemetry append, then accumulation plus the
mid-line-timeout fault, then the `'ok' in line` check. The cursor update
uses truncated `Nat` subtraction; the firmware's resend numbers are
positive, matching Python's `int(...) - 1` there. -/
def readStep (st : ReadState) (line : String) : ReadState × ReadOutcome :=
  if pyStartsWith line "Resend: " then
    match (pySplitWs line).get? 1 with
    | none => (st, ReadOutcome.fault "IndexError")
    | some w =>
      match pyInt? w with
      | none => (st, ReadOutcome.fault "ValueError")
      | some n =>
        ({ st with currentLineIdx := n - 1, okReceived := true }, ReadOutcome.stop)
  else
    let st1 := if pyStartsWith line "T:" then
      { st with tempReadings := st.tempReadings ++ [line] } else st
    if line = "" then okCheck st1 line
    else
      let st2 := { st1 with fullResp := st1.fullResp ++ line }
      if line.data.contains '\n' then okCheck st2 line
      else
        ({ st2 with printing := false, stopPrinting := true, stopReading := true,
                    okReceived := true },
         ReadOutcome.fault "readline timed out mid-line")

/-- Resolution state of the future handed back by `_readline_future`:
either already resolved with a value, or pending (cached from an earlier
call, or freshly registered in `_readline_futures`). -/
inductive FutureState where
  | resolved (r : String)
  | pending (fresh : Bool)
  deriving DecidableEq

/-- Model of `Printer._readline_future`: when
`len(self.responses) >= linenum` the fast path builds a future resolved
with `self.responses[linenum]` (Python indexing, so an `IndexError` escapes
when `linenum` is not below the length); otherwise a cached future is
returned or a fresh one is registered. -/
def readlineFuture (responses : List String) (futures : List Nat)
    (linenum : Nat) : Except String FutureState :=
  if responses.length ≥ linenum then
    match pyGet responses linenum with
    | Except.error e => Except.error e
    | Except.ok r => Except.ok (FutureState.resolved r)
  else if linenum ∈ futures then Except.ok (FutureState.pending false)
  else Except.ok (FutureState.pending true)

/-!  Synchronous facade: `Printer.get_response`.  -/

/-- Outcome of blocking on a pending future in `get_response`: the response
arrives, the caller-supplied timeout expires, or the future is cancelled
because the read thread died. -/
inductive WaitOutcome where
  | resolved (r : String)
  | timedOut
  | cancelled (msg : String)
  deriving DecidableEq

/-- Model of `Printer.get_response`: compute the target index
`len(self._buffer) + 1` before appending, append via `sendline` (which may
raise), obtain the future for that index, fail when the read thread is not
running, and otherwise block; a timeout yields the empty string, a
cancellation is re-raised. Returns the response together with the
post-call send buffer. -/
def getResponse (disconnectPending : Bool) (buffer responses : List String)
    (futures : List Nat) (line : String) (readThreadRunning : Bool)
    (wait : WaitOutcome) : Except String (String × List String) :=
  let bufLen := buffer.length + 1
  match sendline disconnectPending buffer line with
  | (some e, _) => Except.error e
  | (none, buffer1) =>
    match readlineFuture responses futures bufLen with
    | Except.error e => Except.error e
    | Except.ok fs =>
      if readThreadRunning = false then
        Except.error "cannot get response from serial since read thread is not running"
      else
        match fs with
        | FutureState.resolved r => Except.ok (r, buffer1)
        | FutureState.pending _ =>
          match wait with
          | WaitOutcome.resolved r => Except.ok (r, buffer1)
          | WaitOutcome.timedOut => Except.ok ("", buffer1)
          | WaitOutcome.cancelled e => Except.error e

/-!  Lifecycle: the session state reset performed by `Printer.connect`.  -/

/-- Session state of a `Printer` instance, restricted to the fields
`connect` and the claims touch. -/
structure PrinterState where
  okReceived : Bool
  currentLineIdx : Nat
  buffer : List String
  responses : List String
  sentlines : List String
  tempReadings : List String
  disconnectPending : Bool
  deriving DecidableEq

/-- Model of the state reset in `Printer.connect`: sets the acknowledgment
flag, zeroes the cursor, empties the buffer, the response log and the sent
log, and clears the disconnect-pending flag. The source never touches
`temp_readings` in `connect` (only `__init__` creates it), so that field is
carried over. In both the fresh-serial and adopted-serial branches the
response log is empty when `connect` returns (the fresh branch clears it
again after the boot banner). -/
def connect (st : PrinterState) : PrinterState :=
  { st with okReceived := true, currentLineIdx := 0, buffer := [],
            responses := [], sentlines := [], disconnectPending := false }

/-!  Pacing protocol: a transition system for the `_print_worker` send loop
and the acknowledgment branch of `_read_worker`, interleaved with caller
appends.  -/

/-- Joint state of the pacing protocol: the send buffer, the cursor
(`_current_line_idx`), the acknowledgment flag (`_ok_received`), the frames
written to the transport in order, and the count of acknowledgment tokens
the receiver has processed (`len(self.responses)`). -/
structure ProtoState where
  buffer : List String
  cursor : Nat
  okReceived : Bool
  sent : List String
  acked : Nat
  deriving DecidableEq

/-- Initial protocol state, as established by `__init__`/`connect`: empty
buffer and logs, cursor `0`, acknowledgment flag set. -/
def initProto : ProtoState := ProtoState.mk [] 0 true [] 0

/-- One step of the pacing protocol.
`append` is a caller appending a command (`sendline`).
`send` is one `_print_worker` iteration: enabled only when an unsent
command remains and the sender has observed the acknowledgment flag set
(the `_ok_received` wait); it writes the frame built by `_next_line`,
clears the flag and advances the cursor atomically under
`_communication_lock`.
`ack` is the `'ok' in line` branch of `_read_worker` for a conforming
device, which emits one acknowledgment token per frame it has received:
it sets the flag and completes one more response. -/
inductive ProtoStep : ProtoState → ProtoState → Prop where
  | append (s : ProtoState) (cmd : String) :
      ProtoStep s { s with buffer := s.buffer ++ [cmd] }
  | send (s : ProtoState) (f : String)
      (hcur : s.cursor < s.buffer.length)
      (hok : s.okReceived = true)
      (hf : nextLine s.buffer s.cursor = Except.ok f) :
      ProtoStep s { s with sent := s.sent ++ [f], okReceived := false,
                           cursor := s.cursor + 1 }
  | ack (s : ProtoState)
      (hresp : s.acked < s.sent.length) :
      ProtoStep s { s with okReceived := true, acked := s.acked + 1 }

/-- States reachable from the initial protocol state by interleaving
caller appends with sender and receiver steps. -/
inductive ProtoReachable : ProtoState → Prop where
  | init : ProtoReachable initProto
  | step {s s' : ProtoState} : ProtoReachable s → ProtoStep s s' → ProtoReachable s'

/-!  Helper lemmas shared by the claim theorems.  -/

/-- Appending strings concatenates their character lists. -/
theorem data_append (a b : String) : (a ++ b).data = a.data ++ b.data := rfl

/-- The checksum of a string with a non-empty character list never takes
the empty-string error branch. -/
theorem checksum_isOk (s : String) (h : s.data ≠ []) :
    ∃ c, checksum s = Except.ok c := by
  unfold checksum
  cases hd : s.data with
  | nil => exact absurd hd h
  | cons c cs => exact ⟨_, rfl⟩

/-- XOR of two naturals below `128` stays below `128`. -/
theorem xor_lt_128 {x y : Nat} (hx : x < 128) (hy : y < 128) : x ^^^ y < 128 := by
  have h := Nat.bitwise_lt (f := bne) (n := 7) (x := x) (y := y)
    (by simpa using hx) (by simpa using hy)
  simpa [HXor.hXor, Xor.xor, Nat.xor] using h

/-- Folding the checksum step over ASCII characters keeps the accumulator
below `128`. -/
theorem foldl_xor_lt (l : List Char) (a : Nat) (ha : a < 128)
    (hl : ∀ ch ∈ l, ch.toNat < 128) :
    l.foldl (fun a ch => a ^^^ ch.toNat) a < 128 := by
  induction l generalizing a with
  | nil => simpa using ha
  | cons c cs ih =>
    simp only [List.foldl_cons]
    exact ih _ (xor_lt_128 ha (hl c (List.mem_cons_self c cs)))
      (fun ch hch => hl ch (List.mem_cons_of_mem c hch))

/-- On input whose characters are all ASCII, the checksum value is below
`256` (in fact below `128`). -/
theorem checksum_ascii_lt (s : String) (h : ∀ ch ∈ s.data, ch.toNat < 128)
    (c : Nat) (hc : checksum s = Except.ok c) : c < 256 := by
  unfold checksum at hc
  cases hd : s.data with
  | nil => rw [hd] at hc; exact absurd hc (by simp)
  | cons c0 cs =>
    rw [hd] at hc
    simp only [Except.ok.injEq] at hc
    subst hc
    have h0 : c0.toNat < 128 := h c0 (hd ▸ List.mem_cons_self c0 cs)
    have hrest : ∀ ch ∈ cs, ch.toNat < 128 :=
      fun ch hch => h ch (hd ▸ List.mem_cons_of_mem c0 hch)
    exact lt_trans (foldl_xor_lt cs c0.toNat h0 hrest) (by omega)

/-- Unfolding of `nextLine` on an in-range cursor: the frame is the
numbered, stripped line followed by `*`, the checksum of exactly that
numbered line, and a newline. -/
theorem nextLine_eq_frame (buffer : List String) (i : Nat) (t : String)
    (ht : buffer.get? i = some t) :
    ∃ c, checksum ("N" ++ toString (frameSeq t i) ++ " " ++ pyStrip t) = Except.ok c ∧
      nextLine buffer i
        = Except.ok ("N" ++ toString (frameSeq t i) ++ " " ++ pyStrip t
            ++ "*" ++ toString c ++ "\n") := by
  have hne : ("N" ++ toString (frameSeq t i) ++ " " ++ pyStrip t).data ≠ [] := by
    rw [data_append, data_append, data_append]
    simp
  obtain ⟨c, hc⟩ := checksum_isOk _ hne
  refine ⟨c, hc, ?_⟩
  unfold nextLine frameSeq at *
  rw [ht]
  simp only []
  rw [hc]

/-!  Claim theorems.  -/

/-- C2 (counterexample): the claim asserts that the checksum of the exact
string `"N1 G90"` is `43`; evaluating `_checksum` (XOR of the ASCII codes
`78, 49, 32, 71, 57, 48`) gives `17`, so the claim's concrete value is
wrong (`43` is the checksum of `"N1 M900"`, the value in the repository's
own test). -/
theorem checksum_N1_G90_is_17_not_43 :
    checksum "N1 G90" = Except.ok 17 ∧ checksum "N1 G90" ≠ Except.ok 43 ∧
    checksum "N1 M900" = Except.ok 43 := by decide

/-- C2 (amended): for every buffered command text `t` at cursor index `i`,
the frame produced for transmission is exactly
`"N<seq> <strip t>*<c>\n"` where `<c>` is the XOR of the byte values of
every character of the exact string `"N<seq> <strip t>"` (prefix
included); for the string `"N1 G90"` the checksum is `17`; and for any
ASCII input the checksum lies in the 8-bit range `0..255`. -/
theorem frame_format_and_checksum (buffer : List String) (i : Nat) (t : String)
    (ht : buffer.get? i = some t) :
    (∃ c, checksum ("N" ++ toString (frameSeq t i) ++ " " ++ pyStrip t) = Except.ok c ∧
       nextLine buffer i
         = Except.ok ("N" ++ toString (frameSeq t i) ++ " " ++ pyStrip t
             ++ "*" ++ toString c ++ "\n")) ∧
    checksum "N1 G90" = Except.ok 17 ∧
    (∀ s c, (∀ ch ∈ s.data, ch.toNat < 128) → checksum s = Except.ok c → c < 256) :=
  ⟨nextLine_eq_frame buffer i t ht, by decide,
   fun s c h hc => checksum_ascii_lt s h c hc⟩

/-- C2 (witness): the amended theorem applied to the one-command buffer
`["G90"]` at cursor `0`. -/
theorem frame_format_and_checksum_witness :
    (["G90"] : List String).get? 0 = some "G90" ∧ checksum "N1 G90" = Except.ok 17 :=
  ⟨by decide, (frame_format_and_checksum ["G90"] 0 "G90" (by decide)).2.1⟩

/-- C4 (counterexample): with the buffer `["M110 N0", "G90"]`, framing the
reset command at cursor `0` does embed `N0`, but the next ordinary command
is framed with `N2` (its cursor position plus one), not `N1`: no cursor
baseline reset happens in `_next_line` or `_print_worker`. -/
theorem m110_next_frame_is_N2_not_N1 :
    nextLine ["M110 N0", "G90"] 0 = Except.ok "N0 M110 N0*125\n" ∧
    nextLine ["M110 N0", "G90"] 1 = Except.ok "N2 G90*18\n" ∧
    nextLine ["M110 N0", "G90"] 1 ≠ Except.ok "N1 G90*17\n" := by decide

/-- C4 (amended): framing a buffered reset-line-numbering command
(`"M110 ..."`) embeds the forced sequence number `0` at every cursor
position; the cursor baseline is not reset, so an ordinary command at any
cursor position `j` (in particular the one right after the reset command)
is framed with sequence number `j + 1`, the count of all buffered commands
before it plus one, not `1`. -/
theorem m110_frame_numbering (buffer : List String) (i j : Nat) (t u : String)
    (ht : buffer.get? i = some t) (hM : pyStartsWith (pyStrip t) "M110" = true)
    (hu : buffer.get? j = some u) (hN : pyStartsWith (pyStrip u) "M110" = false) :
    frameSeq t i = 0 ∧ frameSeq u j = j + 1 ∧
    (∃ c : Nat, nextLine buffer i
      = Except.ok ("N" ++ toString (frameSeq t i) ++ " " ++ pyStrip t
          ++ "*" ++ toString c ++ "\n")) ∧
    (∃ c : Nat, nextLine buffer j
      = Except.ok ("N" ++ toString (frameSeq u j) ++ " " ++ pyStrip u
          ++ "*" ++ toString c ++ "\n")) := by
  have hft : frameSeq t i = 0 := by unfold frameSeq; rw [hM]; rfl
  have hfu : frameSeq u j = j + 1 := by unfold frameSeq; rw [hN]; rfl
  obtain ⟨c1, -, hn1⟩ := nextLine_eq_frame buffer i t ht
  obtain ⟨c2, -, hn2⟩ := nextLine_eq_frame buffer j u hu
  exact ⟨hft, hfu, ⟨c1, hn1⟩, ⟨c2, hn2⟩⟩

/-- C4 (witness): the amended theorem applied to the buffer
`["M110 N0", "G90"]` with the reset command at cursor `0` and the ordinary
command at cursor `1`, which is therefore framed as `N2`. -/
theorem m110_frame_numbering_witness :
    frameSeq "M110 N0" 0 = 0 ∧ frameSeq "G90" 1 = 2 :=
  ⟨(m110_frame_numbering ["M110 N0", "G90"] 0 1 "M110 N0" "G90"
      (by decide) (by decide) (by decide) (by decide)).1,
   (m110_frame_numbering ["M110 N0", "G90"] 0 1 "M110 N0" "G90"
      (by decide) (by decide) (by decide) (by decide)).2.1⟩

/-- C9: every string stored in the send buffer by `sendline` or
`load_file` is non-empty (the cleaning step refuses lines whose stripped,
comment-truncated remainder is falsy), and for every frame built from a
buffered command the string handed to `_checksum` is non-empty (it starts
with `'N'`), so the checksum's empty-string error branch is unreachable
and `_next_line` always returns a frame on an in-range cursor. -/
theorem buffer_entries_nonempty_checksum_safe (buffer fileLines : List String)
    (line : String) (hbuf : ∀ e ∈ buffer, e ≠ "") :
    (∀ e ∈ (sendline false buffer line).snd, e ≠ "") ∧
    (∀ e ∈ loadFile buffer fileLines, e ≠ "") ∧
    (∀ i t, buffer.get? i = some t →
      ("N" ++ toString (frameSeq t i) ++ " " ++ pyStrip t) ≠ "" ∧
      ∃ f, nextLine buffer i = Except.ok f) := by
  have hclean : ∀ l out, cleanLine l = some out → out ≠ "" := by
    intro l out hl
    unfold cleanLine at hl
    by_cases he : stripComment (pyStrip l) = ""
    · rw [if_pos he] at hl; exact absurd hl (by simp)
    · rw [if_neg he] at hl
      simp only [Option.some.injEq] at hl
      exact hl ▸ he
  refine ⟨?_, ?_, ?_⟩
  · intro e he
    unfold sendline at he
    simp only [if_neg (by simp : ¬ (false = true))] at he
    cases hc : cleanLine line with
    | none => rw [hc] at he; exact hbuf e he
    | some l =>
      rw [hc] at he
      rcases List.mem_append.mp he with h | h
      · exact hbuf e h
      · rcases List.mem_singleton.mp h with rfl
        exact hclean line e hc
  · intro e he
    unfold loadFile at he
    rcases List.mem_append.mp he with h | h
    · exact hbuf e h
    · obtain ⟨a, -, ha⟩ := List.mem_filterMap.mp h
      exact hclean a e ha
  · intro i t ht
    constructor
    · intro hcontra
      have h2 := congrArg String.data hcontra
      rw [data_append, data_append, data_append] at h2
      simp at h2
    · obtain ⟨c, -, hn⟩ := nextLine_eq_frame buffer i t ht
      exact ⟨_, hn⟩

/-- C9 (witness): the theorem applied to the buffer `["G90"]` (whose single
entry is non-empty), the file lines `["G91 ; c", "", "; only"]` and the
appended line `"M110 N0"`. -/
theorem buffer_entries_nonempty_checksum_safe_witness :
    (∀ e ∈ (["G90"] : List String), e ≠ "") ∧
    (∀ e ∈ (sendline false ["G90"] "M110 N0").snd, e ≠ "") :=
  ⟨by decide,
   (buffer_entries_nonempty_checksum_safe ["G90"] ["G91 ; c", "", "; only"]
      "M110 N0" (by decide)).1⟩

/-- C3 (code evaluated at the failing input): on the response line
`"Resend: 3\n"` with five frames already sent (cursor `5`), the
`_read_worker` body rolls the cursor back to `2` (so the next frame built
by `_next_line` carries sequence number `3`), sets the acknowledgment
flag, and does not append the line to the response log — but its outcome
is the `break` that leaves the read loop (`ReadOutcome.stop`), terminating
the receiver instead of continuing to read further lines as the claim and
the rest of the design require. -/
theorem resend_rolls_back_but_stops_reading :
    readStep (ReadState.mk 5 false ["ok\n", "ok\n"] [] "" true false false) "Resend: 3\n"
      = (ReadState.mk 2 true ["ok\n", "ok\n"] [] "" true false false, ReadOutcome.stop) ∧
    nextLine ["G90", "G91", "G92", "G93", "G94", "G95"] 2 = Except.ok "N3 G92*17\n" ∧
    (readStep (ReadState.mk 5 false ["ok\n", "ok\n"] [] "" true false false)
        "Resend: 3\n").snd ≠ ReadOutcome.next := by decide

/-- C5 (code evaluated at the failing input): when the response log already
holds exactly `n` entries, the `_readline_future` fast path evaluates
`self.responses[linenum]` with the 1-based `linenum` on the 0-based list,
so it raises `IndexError` instead of resolving with the `n`-th entry; with
more than `n` entries it resolves with the `(n+1)`-th entry instead of the
`n`-th. -/
theorem readline_future_fast_path_off_by_one :
    readlineFuture ["ok\n"] [] 1 = Except.error "IndexError" ∧
    readlineFuture ["r1\n", "r2\n"] [] 1 = Except.ok (FutureState.resolved "r2\n") ∧
    readlineFuture ["r1\n", "r2\n"] [] 1 ≠ Except.ok (FutureState.resolved "r1\n") := by decide

/-- C6: for every line and every send buffer, response log and pending-wait
table in which the target index is not yet resolved, a `get_response` call
whose wait ends in a timeout returns the empty string `""` (no error is
raised), the read thread being alive and no disconnect pending. -/
theorem get_response_timeout_returns_empty (buffer responses : List String)
    (futures : List Nat) (line : String)
    (hresp : responses.length ≤ buffer.length) :
    getResponse false buffer responses futures line true WaitOutcome.timedOut
      = Except.ok ("", (sendline false buffer line).snd) := by
  have hne : ¬ (responses.length ≥ buffer.length + 1) := by omega
  unfold getResponse readlineFuture sendline
  by_cases hm : buffer.length + 1 ∈ futures <;>
    cases hc : cleanLine line <;>
      simp [hm, hc, hne]

/-- C6 (witness): the theorem applied to the empty session and the line
`"M114"` with a timed-out wait. -/
theorem get_response_timeout_returns_empty_witness :
    ([] : List String).length ≤ ([] : List String).length ∧
    getResponse false [] [] [] "M114" true WaitOutcome.timedOut
      = Except.ok ("", ["M114"]) :=
  ⟨by decide,
   (get_response_timeout_returns_empty [] [] [] "M114" (by decide)).trans (by decide)⟩

/-- C7: for every line and buffer, calling `sendline` with the
disconnect-pending flag set raises the `RuntimeError` synchronously and
leaves the send buffer unchanged; with the flag clear, `sendline` raises
nothing. -/
theorem sendline_after_disconnect_raises (buffer : List String) (line : String) :
    sendline true buffer line
      = (some ("Attempted to send line after a disconnect was requested: " ++ line),
         buffer) ∧
    (sendline false buffer line).fst = none := by
  constructor
  · rfl
  · unfold sendline
    simp only [if_neg (by simp : ¬ (false = true))]
    cases cleanLine line <;> rfl

/-- C8 (counterexample): `connect` resets cursor, buffer, response log and
sent log and the two flags, but never touches the temperature log
`temp_readings`; starting from a session whose temperature log holds one
reading, the log is unchanged — not empty — after `connect`. -/
theorem connect_does_not_clear_temp_log :
    connect (PrinterState.mk false 3 ["G90"] ["ok\n"] ["G90"] ["T:210.0 ok\n"] true)
      = PrinterState.mk true 0 [] [] [] ["T:210.0 ok\n"] false ∧
    (connect (PrinterState.mk false 3 ["G90"] ["ok\n"] ["G90"] ["T:210.0 ok\n"] true)).tempReadings
      ≠ [] := by decide

/-- C8 (amended): after `connect` the cursor is `0`, the send buffer, the
response log and the sent log are empty, the acknowledgment flag is set
and the disconnect-requested flag is cleared, regardless of the state
before the call; the temperature log is the one exception — it is carried
over unchanged. -/
theorem connect_resets_session (st : PrinterState) :
    connect st = PrinterState.mk true 0 [] [] [] st.tempReadings false := rfl

/-- C10: for every input line whose stripped, comment-truncated remainder
is empty, `get_response` leaves the send buffer unchanged, yet registers a
fresh wait for index `len(buffer) + 1` — one past the last buffered
command — so the call does not fail fast: it blocks until that index is
resolved by a later-appended command's response (returning that response)
or times out (returning `""`). -/
theorem get_response_blank_line_blocks (buffer responses : List String)
    (futures : List Nat) (line : String)
    (hline : cleanLine line = none)
    (hresp : responses.length ≤ buffer.length)
    (hfresh : (buffer.length + 1) ∉ futures) :
    sendline false buffer line = (none, buffer) ∧
    readlineFuture responses futures (buffer.length + 1)
      = Except.ok (FutureState.pending true) ∧
    getResponse false buffer responses futures line true WaitOutcome.timedOut
      = Except.ok ("", buffer) ∧
    (∀ r, getResponse false buffer responses futures line true (WaitOutcome.resolved r)
      = Except.ok (r, buffer)) := by
  have hsend : sendline false buffer line = (none, buffer) := by
    unfold sendline
    simp only [if_neg (by simp : ¬ (false = true)), hline]
  have hge : (responses.length ≥ buffer.length + 1) = False := by
    simp; omega
  have hfut : readlineFuture responses futures (buffer.length + 1)
      = Except.ok (FutureState.pending true) := by
    unfold readlineFuture
    simp only [hge, if_false, if_neg hfresh]
  refine ⟨hsend, hfut, ?_, ?_⟩
  · unfold getResponse
    rw [hsend]
    simp only [hfut]
    rfl
  · intro r
    unfold getResponse
    rw [hsend]
    simp only [hfut]
    rfl

/-- C10 (witness): the theorem applied to the empty session and the
comment-only line `" ; comment"`. -/
theorem get_response_blank_line_blocks_witness :
    cleanLine " ; comment" = none ∧
    getResponse false [] [] [] " ; comment" true WaitOutcome.timedOut
      = Except.ok ("", []) :=
  ⟨by decide,
   (get_response_blank_line_blocks [] [] [] " ; comment"
      (by decide) (by decide) (by decide)).2.2.1⟩

/-- C1: in every state reachable by interleaving caller appends with
sender and receiver steps, at most one transmitted frame is
unacknowledged (`sent.length ≤ acked + 1`), and whenever the
acknowledgment flag is set — the only condition under which the sender's
guarded wait lets it transmit — every frame already written to the
transport has been acknowledged; hence the sender never writes frame
`k + 1` before the acknowledgment for frame `k` has been set by the
receiver and observed by the sender. -/
theorem at_most_one_in_flight (s : ProtoState) (h : ProtoReachable s) :
    s.sent.length ≤ s.acked + 1 ∧ (s.okReceived = true → s.acked = s.sent.length) := by
  induction h with
  | init => exact ⟨by simp [initProto], fun _ => by simp [initProto]⟩
  | @step u v hr hstep ih =>
    obtain ⟨ih1, ih2⟩ := ih
    cases hstep with
    | append cmd => exact ⟨ih1, ih2⟩
    | send f hcur hok hf =>
      have heq := ih2 hok
      refine ⟨?_, ?_⟩
      · show (u.sent ++ [f]).length ≤ u.acked + 1
        simp only [List.length_append, List.length_singleton]
        omega
      · intro hfalse
        simp at hfalse
    | ack hresp =>
      refine ⟨?_, fun _ => ?_⟩
      · show u.sent.length ≤ (u.acked + 1) + 1
        omega
      · show u.acked + 1 = u.sent.length
        omega

/-- C1 (witness): the invariant instantiated at the reachable state
obtained by appending `"G90"`, transmitting its frame, and receiving the
acknowledgment token. -/
theorem at_most_one_in_flight_witness :
    (ProtoState.mk ["G90"] 1 true ["N1 G90*17\n"] 1).sent.length
      ≤ (ProtoState.mk ["G90"] 1 true ["N1 G90*17\n"] 1).acked + 1 ∧
    ((ProtoState.mk ["G90"] 1 true ["N1 G90*17\n"] 1).okReceived = true →
      (ProtoState.mk ["G90"] 1 true ["N1 G90*17\n"] 1).acked
        = (ProtoState.mk ["G90"] 1 true ["N1 G90*17\n"] 1).sent.length) :=
  at_most_one_in_flight _
    (ProtoReachable.step
      (ProtoReachable.step
        (ProtoReachable.step ProtoReachable.init
          (ProtoStep.append initProto "G90"))
        (ProtoStep.send _ "N1 G90*17\n" (by decide) (by decide) (by decide)))
      (ProtoStep.ack _ (by decide)))

end Mecode
